import Mathlib

/-!
# simple_capture: capture-to-file pipeline

Shallow embedding of `src/simple_capture.c`: the heap-copy wrappers, the
capture callback, the capture configuration builder and `main`.

* Pointers to encoders are addresses into a `Memory`; address `0` is `NULL`.
  A computation that dereferences an invalid pointer, fails `MA_ASSERT`, or
  reads past a buffer yields `none`.
* `main` is a function of its arguments and of the results the three
  fallible engine calls hand back (`Env`); it yields the exit status together
  with the sequence of calls it made, in program order.
* Functions of the vendored engine (`miniaudio.h`) are not part of the
  source file; the ones the program depends on are modelled from the
  specification and marked as such.
-/

namespace SimpleCapture

/-! ## Engine types -/

/-- Modelled from the spec: result code of the engine (declared in
`miniaudio.h`). The program only ever compares a result with `MA_SUCCESS`. -/
inductive ma_result where
  | MA_SUCCESS
  | MA_ERROR (code : Int)
  deriving DecidableEq, Repr

/-- Modelled from the spec: container formats of the encoder (declared in
`miniaudio.h`); the program uses `ma_encoding_format_wav` only. -/
inductive ma_encoding_format where
  | ma_encoding_format_unknown
  | ma_encoding_format_wav
  deriving DecidableEq, Repr

/-- Modelled from the spec: sample representations (declared in
`miniaudio.h`); the program uses `ma_format_f32` (32-bit float) only. -/
inductive ma_format where
  | ma_format_unknown
  | ma_format_u8
  | ma_format_s16
  | ma_format_s24
  | ma_format_s32
  | ma_format_f32
  deriving DecidableEq, Repr

/-- Modelled from the spec: device kinds (declared in `miniaudio.h`); the
program uses `ma_device_type_capture` only. -/
inductive ma_device_type where
  | ma_device_type_playback
  | ma_device_type_capture
  | ma_device_type_duplex
  | ma_device_type_loopback
  deriving DecidableEq, Repr

/-- One byte of sample data. -/
abbrev Byte := Fin 256

/-- An address; `0` is `NULL`. -/
abbrev Ptr := Nat

/-- Modelled from the spec: `EncoderConfig` = container format, sample
format, channel count, sample rate (struct `ma_encoder_config` of
`miniaudio.h`). -/
structure ma_encoder_config where
  encodingFormat : ma_encoding_format
  format : ma_format
  channels : Nat
  sampleRate : Nat
  deriving DecidableEq, Repr

/-- Modelled from the spec: `Encoder` owns its configuration, the sample data
appended to the output so far and the running frame count (struct
`ma_encoder` of `miniaudio.h`; the source reads its `config` field). -/
structure ma_encoder where
  config : ma_encoder_config
  sampleData : List Byte
  frameCount : Nat
  deriving DecidableEq, Repr

/-- The functions of this program that can be installed as a device data
callback (a function pointer is represented by the name of its target). -/
inductive ma_device_data_proc where
  | data_callback_for_capture
  deriving DecidableEq, Repr

/-- The `capture` sub-structure of `ma_device_config`. -/
structure ma_device_config_capture where
  format : ma_format
  channels : Nat
  deriving DecidableEq, Repr

/-- The fields of `ma_device_config` the program touches. `dataCallback` and
`pUserData` are pointers: `none` resp. `0` stand for `NULL`. -/
structure ma_device_config where
  deviceType : ma_device_type
  sampleRate : Nat
  capture : ma_device_config_capture
  dataCallback : Option ma_device_data_proc
  pUserData : Ptr
  deriving DecidableEq, Repr

/-- Encoder objects by address. -/
abbrev Memory := Ptr → Option ma_encoder

/-- Read the encoder a pointer refers to; `NULL` refers to nothing. -/
def deref (mem : Memory) (p : Ptr) : Option ma_encoder :=
  if p = 0 then none else mem p

/-- Overwrite the encoder stored at an address. -/
def store (mem : Memory) (p : Ptr) (e : ma_encoder) : Memory :=
  fun q => if q = p then some e else mem q

/-! ## Engine functions the program calls -/

/-- Modelled from the spec: `ma_encoder_config_init` of `miniaudio.h` builds
the `EncoderConfig` from its four arguments. -/
def ma_encoder_config_init (encodingFormat : ma_encoding_format) (format : ma_format)
    (channels sampleRate : Nat) : ma_encoder_config :=
  { encodingFormat := encodingFormat, format := format,
    channels := channels, sampleRate := sampleRate }

/-- Modelled from the spec: `ma_device_config_init` of `miniaudio.h` yields a
zeroed configuration of the requested device type. -/
def ma_device_config_init (deviceType : ma_device_type) : ma_device_config :=
  { deviceType := deviceType, sampleRate := 0,
    capture := { format := ma_format.ma_format_unknown, channels := 0 },
    dataCallback := none, pUserData := 0 }

/-- Modelled from the spec: size in bytes of one frame, channelCount x
bytesPerSample. The per-format sample size table `bps` of the engine is a
parameter. -/
def bytesPerFrame (bps : ma_format → Nat) (cfg : ma_encoder_config) : Nat :=
  cfg.channels * bps cfg.format

/-- Modelled from the spec: what the engine does with one write,
`Result<framesWritten, Error(WriteFailed)>`: the result it hands back and the
number of frames the output accepts. This is decided outside the program. -/
structure WriteOutcome where
  result : ma_result
  framesAccepted : Nat
  deriving DecidableEq, Repr

/-- Modelled from the spec: `writeFrames(frameBuffer, frameCount)` appends raw
samples with no reformatting and increments the frame counter; it reports the
frames written, or fails. (`ma_encoder_write_pcm_frames` of `miniaudio.h`.)
With a successful `outcome` the frames written are the leading frames of the
buffer that the output accepts, at most `frameCount`; with a failed one the
encoder is left as it was and no frame is written. An invalid encoder pointer
or a buffer holding fewer than `frameCount` frames is undefined behaviour. -/
def ma_encoder_write_pcm_frames (bps : ma_format → Nat) (outcome : WriteOutcome)
    (mem : Memory) (pEncoder : Ptr) (pFramesIn : List Byte) (frameCount : Nat) :
    Option (ma_result × Nat × Memory) :=
  match deref mem pEncoder with
  | none => none
  | some e =>
    if pFramesIn.length < frameCount * bytesPerFrame bps e.config then none
    else if outcome.result = ma_result.MA_SUCCESS then
      let framesWritten := min outcome.framesAccepted frameCount
      some (ma_result.MA_SUCCESS, framesWritten,
        store mem pEncoder
          { e with
            sampleData := e.sampleData ++
              pFramesIn.take (framesWritten * bytesPerFrame bps e.config),
            frameCount := e.frameCount + framesWritten })
    else
      some (outcome.result, 0, mem)

/-- Modelled from the spec: `open(path, config)` creates the encoder from the
configuration and the destination path, with no frames written yet; on
failure no encoder exists. (`ma_encoder_init_file` of `miniaudio.h`.) Whether
the file can be created is decided outside the program: `outcome` is the
result the engine hands back. -/
def ma_encoder_init_file (outcome : ma_result) (_pFilePath : Option String)
    (pConfig : ma_encoder_config) (mem : Memory) (pEncoder : Ptr) : ma_result × Memory :=
  if outcome = ma_result.MA_SUCCESS then
    (outcome, store mem pEncoder { config := pConfig, sampleData := [], frameCount := 0 })
  else
    (outcome, mem)

/-! ## The source file -/

/-- Source `allocate_ma_encoder_config_copy`: a fresh heap cell receiving a
byte-for-byte copy of `source`; the returned pointer is represented by the
content of the cell. -/
def allocate_ma_encoder_config_copy (source : ma_encoder_config) : ma_encoder_config :=
  source

/-- Source `allocate_ma_device_config_copy`: a fresh heap cell receiving a
byte-for-byte copy of `source`; the returned pointer is represented by the
content of the cell. -/
def allocate_ma_device_config_copy (source : ma_device_config) : ma_device_config :=
  source

/-- Source `ma_ext_encoder_config_init`. -/
def ma_ext_encoder_config_init (encodingFormat : ma_encoding_format) (format : ma_format)
    (channels sampleRate : Nat) : ma_encoder_config :=
  let config := ma_encoder_config_init encodingFormat format channels sampleRate
  allocate_ma_encoder_config_copy config

/-- The fields of `ma_device` the program touches: the user data pointer and
the installed data callback. -/
structure ma_device where
  pUserData : Ptr
  onData : Option ma_device_data_proc
  deriving DecidableEq, Repr

/-- Source `data_callback_for_capture`: take the encoder from the user data of
the device, assert it is not `NULL`, write `frameCount` frames of `pInput` to
it, discard the result and the frames written (`NULL` is passed for them);
`pOutput` is not used. `write` is what the engine does with the write. -/
def data_callback_for_capture (bps : ma_format → Nat) (write : WriteOutcome) (mem : Memory)
    (pDevice : ma_device) (_pOutput : Option (List Byte)) (pInput : List Byte)
    (frameCount : Nat) : Option Memory :=
  let pEncoder := pDevice.pUserData
  if pEncoder = 0 then none
  else
    match ma_encoder_write_pcm_frames bps write mem pEncoder pInput frameCount with
    | none => none
    | some (_, _, mem') => some mem'

/-- Source `ma_ext_device_config_init_for_capture`. -/
def ma_ext_device_config_init_for_capture (mem : Memory) (encoder : Ptr) :
    Option ma_device_config :=
  match deref mem encoder with
  | none => none
  | some e =>
    let deviceConfig := ma_device_config_init ma_device_type.ma_device_type_capture
    let deviceConfig := { deviceConfig with
      capture := { deviceConfig.capture with format := e.config.format } }
    let deviceConfig := { deviceConfig with
      capture := { deviceConfig.capture with channels := e.config.channels } }
    let deviceConfig := { deviceConfig with sampleRate := e.config.sampleRate }
    let deviceConfig := { deviceConfig with
      dataCallback := some ma_device_data_proc.data_callback_for_capture }
    let deviceConfig := { deviceConfig with pUserData := encoder }
    some (allocate_ma_device_config_copy deviceConfig)

/-- The two heap objects `main` owns through pointers. -/
inductive HeapObject where
  | encoderConfig
  | deviceConfig
  deriving DecidableEq, Repr

/-- A call made by `main`, with its arguments and, for the fallible engine
calls, the result handed back. `ma_device_stop` belongs to the device
interface although `main` has no such call. -/
inductive Call where
  | printf (msg : String)
  | ma_ext_encoder_config_init (encodingFormat : ma_encoding_format) (format : ma_format)
      (channels sampleRate : Nat)
  | ma_encoder_init_file (pFilePath : Option String) (pConfig : ma_encoder_config)
      (pEncoder : Ptr) (result : ma_result)
  | ma_ext_device_config_init_for_capture (encoder : Ptr)
  | ma_device_init (pConfig : ma_device_config) (result : ma_result)
  | ma_device_start (result : ma_result)
  | getchar
  | ma_device_stop
  | ma_device_uninit
  | ma_encoder_uninit (pEncoder : Ptr)
  | ma_ext_free (ptr : HeapObject)
  deriving DecidableEq, Repr

/-- The results of the three fallible steps of a run. -/
structure Env where
  encoderInitFile : ma_result
  deviceInit : ma_result
  deviceStart : ma_result
  deriving DecidableEq, Repr

/-- Address of the local variable `encoder` of `main`. -/
def encoderAddr : Ptr := 1

/-- Source `main`: exit status and the calls made, in order. `getchar` is a
call that returns; its value is discarded. -/
def main (argc : Int) (argv : List String) (env : Env) : Option (Int × List Call) :=
  if argc < 2 then
    some (-1, [Call.printf "No output file.\n"])
  else
    let encoderConfig := ma_ext_encoder_config_init
      ma_encoding_format.ma_encoding_format_wav ma_format.ma_format_f32 2 44100
    let t1 := [Call.ma_ext_encoder_config_init
      ma_encoding_format.ma_encoding_format_wav ma_format.ma_format_f32 2 44100]
    let r := ma_encoder_init_file env.encoderInitFile (argv.get? 1) encoderConfig
      (fun _ => none) encoderAddr
    let t2 := t1 ++ [Call.ma_encoder_init_file (argv.get? 1) encoderConfig encoderAddr r.1]
    if r.1 ≠ ma_result.MA_SUCCESS then
      some (-1, t2 ++ [Call.printf "Failed to initialize output file.\n"])
    else
      match ma_ext_device_config_init_for_capture r.2 encoderAddr with
      | none => none
      | some deviceConfig =>
        let t3 := t2 ++ [Call.ma_ext_device_config_init_for_capture encoderAddr]
        let result := env.deviceInit
        let t4 := t3 ++ [Call.ma_device_init deviceConfig result]
        if result ≠ ma_result.MA_SUCCESS then
          some (-2, t4 ++ [Call.printf "Failed to initialize capture device.\n"])
        else
          let result := env.deviceStart
          let t5 := t4 ++ [Call.ma_device_start result]
          if result ≠ ma_result.MA_SUCCESS then
            some (-3, t5 ++ [Call.ma_device_uninit, Call.printf "Failed to start device.\n"])
          else
            some (0, t5 ++ [Call.printf "Press Enter to stop recording...\n",
              Call.getchar,
              Call.ma_device_uninit,
              Call.ma_encoder_uninit encoderAddr,
              Call.ma_ext_free HeapObject.encoderConfig,
              Call.ma_ext_free HeapObject.deviceConfig])

/-- The capture configuration `main` hands to `ma_device_init`. -/
def mainDeviceConfig : ma_device_config :=
  { deviceType := ma_device_type.ma_device_type_capture, sampleRate := 44100,
    capture := { format := ma_format.ma_format_f32, channels := 2 },
    dataCallback := some ma_device_data_proc.data_callback_for_capture,
    pUserData := encoderAddr }

/-- The encoder configuration `main` hands to `ma_encoder_init_file`. -/
def mainEncoderConfig : ma_encoder_config :=
  { encodingFormat := ma_encoding_format.ma_encoding_format_wav,
    format := ma_format.ma_format_f32, channels := 2, sampleRate := 44100 }

/-- The calls of a run up to and including `ma_encoder_init_file`. -/
def tracePrefix (argv : List String) (r : ma_result) : List Call :=
  [Call.ma_ext_encoder_config_init
      ma_encoding_format.ma_encoding_format_wav ma_format.ma_format_f32 2 44100,
   Call.ma_encoder_init_file (argv.get? 1) mainEncoderConfig encoderAddr r]

/-! ## Delivering captured frames -/

/-- Modelled from the spec: `create(config, onFrames)` registers the frame
callback and keeps the user data of the configuration; on failure there is no
device. (`ma_device_init` of `miniaudio.h`; `outcome` is the result the engine
hands back.) -/
def ma_device_init (outcome : ma_result) (pConfig : ma_device_config) :
    ma_result × Option ma_device :=
  if outcome = ma_result.MA_SUCCESS then
    (outcome, some { pUserData := pConfig.pUserData, onData := pConfig.dataCallback })
  else
    (outcome, none)

/-- One delivery of the backend to the data callback, together with what the
engine does with the write the callback makes for it. -/
structure Delivery where
  pOutput : Option (List Byte)
  pInput : List Byte
  frameCount : Nat
  write : WriteOutcome
  deriving DecidableEq, Repr

/-- The frames of a delivery that reach the encoder: those the output accepts
when the write succeeds, none when it fails. -/
def Delivery.framesWritten (d : Delivery) : Nat :=
  if d.write.result = ma_result.MA_SUCCESS then min d.write.framesAccepted d.frameCount else 0

/-- A sequence of invocations of `data_callback_for_capture` on one device. -/
def callbackRun (bps : ma_format → Nat) (pDevice : ma_device) :
    Memory → List Delivery → Option Memory
  | mem, [] => some mem
  | mem, d :: ds =>
    match data_callback_for_capture bps d.write mem pDevice d.pOutput d.pInput d.frameCount with
    | none => none
    | some mem' => callbackRun bps pDevice mem' ds

/-- Call through the function pointer installed in the device; with no
callback installed nothing happens. -/
def invokeDataCallback (bps : ma_format → Nat) (mem : Memory) (pDevice : ma_device)
    (d : Delivery) : Option Memory :=
  match pDevice.onData with
  | none => some mem
  | some ma_device_data_proc.data_callback_for_capture =>
    data_callback_for_capture bps d.write mem pDevice d.pOutput d.pInput d.frameCount

/-- A stub capture backend: hands the buffers, in order, to the callback
installed in the device. -/
def stubBackend (bps : ma_format → Nat) (pDevice : ma_device) :
    Memory → List Delivery → Option Memory
  | mem, [] => some mem
  | mem, d :: ds =>
    match invokeDataCallback bps mem pDevice d with
    | none => none
    | some mem' => stubBackend bps pDevice mem' ds

/-! ## Device lifecycle and resources along a run -/

/-- Modelled from the spec: the states of the Capture Device Controller. -/
inductive DeviceState where
  | Uninitialized
  | Ready
  | Running
  | Stopped
  | Closed
  deriving DecidableEq, Repr

/-- Modelled from the spec: `stop()`, Running to Stopped. -/
def DeviceState.stop : DeviceState → DeviceState
  | DeviceState.Running => DeviceState.Stopped
  | s => s

/-- Modelled from the spec: `close()`, Stopped to Closed; a device whose start
failed is closed from Ready. -/
def DeviceState.close : DeviceState → DeviceState
  | DeviceState.Stopped => DeviceState.Closed
  | DeviceState.Ready => DeviceState.Closed
  | s => s

/-- Modelled from the spec: effect of one call on the device. `create` leads
to Ready, `start` from Ready or Stopped to Running, both only on success;
`ma_device_uninit` is the teardown of the program, which "stops and tears
down": a stop followed by a close. -/
def deviceStep (s : DeviceState) : Call → DeviceState
  | Call.ma_device_init _ r =>
    if s = DeviceState.Uninitialized ∧ r = ma_result.MA_SUCCESS then DeviceState.Ready else s
  | Call.ma_device_start r =>
    if (s = DeviceState.Ready ∨ s = DeviceState.Stopped) ∧ r = ma_result.MA_SUCCESS
    then DeviceState.Running else s
  | Call.ma_device_stop => s.stop
  | Call.ma_device_uninit => s.stop.close
  | _ => s

/-- Each call of a run paired with the device state in which it is issued. -/
def issuedFrom : DeviceState → List Call → List (DeviceState × Call)
  | _, [] => []
  | s, c :: cs => (s, c) :: issuedFrom (deviceStep s c) cs

/-- Each call of a run of the program paired with the device state in which
it is issued; the device starts Uninitialized. -/
def issued (tr : List Call) : List (DeviceState × Call) :=
  issuedFrom DeviceState.Uninitialized tr

/-- The device states a run passes through, the initial one first. -/
def deviceHistory (tr : List Call) : List DeviceState :=
  DeviceState.Uninitialized ::
    (issued tr).map (fun p => deviceStep p.1 p.2)

/-- Position of a state in the lifecycle order. -/
def DeviceState.rank : DeviceState → Nat
  | DeviceState.Uninitialized => 0
  | DeviceState.Ready => 1
  | DeviceState.Running => 2
  | DeviceState.Stopped => 3
  | DeviceState.Closed => 4

/-- Is the call an `ma_encoder_uninit`? -/
def Call.isEncoderUninit : Call → Bool
  | Call.ma_encoder_uninit _ => true
  | _ => false

/-- Is the call an `ma_encoder_init_file`? -/
def Call.isEncoderInitFile : Call → Bool
  | Call.ma_encoder_init_file _ _ _ _ => true
  | _ => false

/-- Is the call an `ma_ext_device_config_init_for_capture`? -/
def Call.isDeviceConfigInit : Call → Bool
  | Call.ma_ext_device_config_init_for_capture _ => true
  | _ => false

/-- Is the call an `ma_device_init`? -/
def Call.isDeviceInit : Call → Bool
  | Call.ma_device_init _ _ => true
  | _ => false

/-- Is the call an `ma_device_start`? -/
def Call.isDeviceStart : Call → Bool
  | Call.ma_device_start _ => true
  | _ => false

/-- The resources of a run that are currently held. -/
structure Resources where
  encoderConfig : Bool
  encoder : Bool
  deviceConfig : Bool
  device : Bool
  deriving DecidableEq, Repr

/-- Effect of one call on the held resources: the two config builders
allocate, the two init calls create on success, the uninit and free calls
release. -/
def resourceStep (r : Resources) : Call → Resources
  | Call.ma_ext_encoder_config_init _ _ _ _ => { r with encoderConfig := true }
  | Call.ma_encoder_init_file _ _ _ res =>
    if res = ma_result.MA_SUCCESS then { r with encoder := true } else r
  | Call.ma_ext_device_config_init_for_capture _ => { r with deviceConfig := true }
  | Call.ma_device_init _ res =>
    if res = ma_result.MA_SUCCESS then { r with device := true } else r
  | Call.ma_device_uninit => { r with device := false }
  | Call.ma_encoder_uninit _ => { r with encoder := false }
  | Call.ma_ext_free HeapObject.encoderConfig => { r with encoderConfig := false }
  | Call.ma_ext_free HeapObject.deviceConfig => { r with deviceConfig := false }
  | _ => r

/-- The resources still held when a run returns. -/
def heldAfter (tr : List Call) : Resources :=
  tr.foldl resourceStep
    { encoderConfig := false, encoder := false, deviceConfig := false, device := false }

/-! ## A concrete capture session -/

/-- A sample size table with 4 bytes for 32-bit float samples. -/
def demoBps : ma_format → Nat
  | ma_format.ma_format_f32 => 4
  | _ => 0

/-- An encoder as `main` creates it: WAV, f32, 2 channels, 44100 Hz. -/
def demoEncoder : ma_encoder :=
  { config := mainEncoderConfig, sampleData := [], frameCount := 0 }

/-- A memory holding `demoEncoder` at the address of the local of `main`. -/
def demoMemory : Memory :=
  store (fun _ => none) encoderAddr demoEncoder

/-- A device whose user data is the encoder at `encoderAddr`. -/
def demoDevice : ma_device :=
  { pUserData := encoderAddr,
    onData := some ma_device_data_proc.data_callback_for_capture }

/-- Two deliveries: one frame, then two frames, of 8 bytes each. -/
def demoDeliveries : List Delivery :=
  [ { pOutput := none, pInput := [1, 2, 3, 4, 5, 6, 7, 8], frameCount := 1,
      write := { result := ma_result.MA_SUCCESS, framesAccepted := 1 } },
    { pOutput := none,
      pInput := [9, 10, 11, 12, 13, 14, 15, 16, 17, 18, 19, 20, 21, 22, 23, 24],
      frameCount := 2,
      write := { result := ma_result.MA_SUCCESS, framesAccepted := 2 } } ]

/-- The same two deliveries, the engine refusing the second write. -/
def demoRefusedSecond : List Delivery :=
  [ { pOutput := none, pInput := [1, 2, 3, 4, 5, 6, 7, 8], frameCount := 1,
      write := { result := ma_result.MA_SUCCESS, framesAccepted := 1 } },
    { pOutput := none,
      pInput := [9, 10, 11, 12, 13, 14, 15, 16, 17, 18, 19, 20, 21, 22, 23, 24],
      frameCount := 2,
      write := { result := ma_result.MA_ERROR (-1), framesAccepted := 0 } } ]

/-- Two deliveries of one frame each, the output accepting no frame of the
first write although the write reports success. -/
def demoShortFirst : List Delivery :=
  [ { pOutput := none, pInput := [1, 2, 3, 4, 5, 6, 7, 8], frameCount := 1,
      write := { result := ma_result.MA_SUCCESS, framesAccepted := 0 } },
    { pOutput := none, pInput := [9, 10, 11, 12, 13, 14, 15, 16], frameCount := 1,
      write := { result := ma_result.MA_SUCCESS, framesAccepted := 1 } } ]

/-! ## Paths of `main` -/

theorem main_no_argument (argc : Int) (argv : List String) (env : Env) (h : argc < 2) :
    main argc argv env = some (-1, [Call.printf "No output file.\n"]) := by
  simp [main, h]

theorem main_encoder_failure (argc : Int) (argv : List String) (env : Env) (h : ¬ argc < 2)
    (he : env.encoderInitFile ≠ ma_result.MA_SUCCESS) :
    main argc argv env = some (-1, tracePrefix argv env.encoderInitFile ++
      [Call.printf "Failed to initialize output file.\n"]) := by
  simp [main, h, he, ma_encoder_init_file, tracePrefix, mainEncoderConfig,
    ma_ext_encoder_config_init, ma_encoder_config_init, allocate_ma_encoder_config_copy]

theorem main_config_for_capture :
    ma_ext_device_config_init_for_capture
      (store (fun _ => none) encoderAddr
        { config := mainEncoderConfig, sampleData := [], frameCount := 0 }) encoderAddr
      = some mainDeviceConfig := by
  simp [ma_ext_device_config_init_for_capture, deref, store, encoderAddr, mainDeviceConfig,
    mainEncoderConfig, ma_device_config_init, allocate_ma_device_config_copy]

theorem main_device_init_failure (argc : Int) (argv : List String) (env : Env)
    (h : ¬ argc < 2) (he : env.encoderInitFile = ma_result.MA_SUCCESS)
    (hd : env.deviceInit ≠ ma_result.MA_SUCCESS) :
    main argc argv env = some (-2, tracePrefix argv ma_result.MA_SUCCESS ++
      [Call.ma_ext_device_config_init_for_capture encoderAddr,
       Call.ma_device_init mainDeviceConfig env.deviceInit,
       Call.printf "Failed to initialize capture device.\n"]) := by
  have hc := main_config_for_capture
  simp only [mainEncoderConfig] at hc
  simp [main, h, he, hd, ma_encoder_init_file, tracePrefix, mainEncoderConfig,
    ma_ext_encoder_config_init, ma_encoder_config_init, allocate_ma_encoder_config_copy, hc]

theorem main_device_start_failure (argc : Int) (argv : List String) (env : Env)
    (h : ¬ argc < 2) (he : env.encoderInitFile = ma_result.MA_SUCCESS)
    (hd : env.deviceInit = ma_result.MA_SUCCESS)
    (hs : env.deviceStart ≠ ma_result.MA_SUCCESS) :
    main argc argv env = some (-3, tracePrefix argv ma_result.MA_SUCCESS ++
      [Call.ma_ext_device_config_init_for_capture encoderAddr,
       Call.ma_device_init mainDeviceConfig ma_result.MA_SUCCESS,
       Call.ma_device_start env.deviceStart,
       Call.ma_device_uninit,
       Call.printf "Failed to start device.\n"]) := by
  have hc := main_config_for_capture
  simp only [mainEncoderConfig] at hc
  simp [main, h, he, hd, hs, ma_encoder_init_file, tracePrefix, mainEncoderConfig,
    ma_ext_encoder_config_init, ma_encoder_config_init, allocate_ma_encoder_config_copy, hc]

theorem main_success (argc : Int) (argv : List String) (env : Env)
    (h : ¬ argc < 2) (he : env.encoderInitFile = ma_result.MA_SUCCESS)
    (hd : env.deviceInit = ma_result.MA_SUCCESS)
    (hs : env.deviceStart = ma_result.MA_SUCCESS) :
    main argc argv env = some (0, tracePrefix argv ma_result.MA_SUCCESS ++
      [Call.ma_ext_device_config_init_for_capture encoderAddr,
       Call.ma_device_init mainDeviceConfig ma_result.MA_SUCCESS,
       Call.ma_device_start ma_result.MA_SUCCESS,
       Call.printf "Press Enter to stop recording...\n",
       Call.getchar,
       Call.ma_device_uninit,
       Call.ma_encoder_uninit encoderAddr,
       Call.ma_ext_free HeapObject.encoderConfig,
       Call.ma_ext_free HeapObject.deviceConfig]) := by
  have hc := main_config_for_capture
  simp only [mainEncoderConfig] at hc
  simp [main, h, he, hd, hs, ma_encoder_init_file, tracePrefix, mainEncoderConfig,
    ma_ext_encoder_config_init, ma_encoder_config_init, allocate_ma_encoder_config_copy, hc]

/-! ## The capture callback -/

theorem deref_store_same (mem : Memory) (p : Ptr) (e : ma_encoder) (hp : p ≠ 0) :
    deref (store mem p e) p = some e := by
  simp [deref, store, hp]

theorem store_other (mem : Memory) (p q : Ptr) (e : ma_encoder) (hq : q ≠ p) :
    store mem p e q = mem q := by
  simp [store, hq]

theorem deref_ne_null (mem : Memory) (p : Ptr) (e : ma_encoder) (h : deref mem p = some e) :
    p ≠ 0 := by
  intro hp
  simp [deref, hp] at h

/-- One invocation of the callback on a device whose user data refers to an
encoder: the callback returns, the encoder receives the leading frames of the
input that the engine writes, and nothing else in memory changes. -/
theorem data_callback_step (bps : ma_format → Nat) (mem : Memory) (pDevice : ma_device)
    (e : ma_encoder) (d : Delivery)
    (huser : deref mem pDevice.pUserData = some e)
    (hbuf : d.frameCount * bytesPerFrame bps e.config ≤ d.pInput.length) :
    ∃ mem', data_callback_for_capture bps d.write mem pDevice d.pOutput d.pInput d.frameCount
        = some mem' ∧
      deref mem' pDevice.pUserData = some
        { e with
          sampleData := e.sampleData ++
            d.pInput.take (d.framesWritten * bytesPerFrame bps e.config),
          frameCount := e.frameCount + d.framesWritten } ∧
      ∀ q, q ≠ pDevice.pUserData → mem' q = mem q := by
  have hp := deref_ne_null mem _ e huser
  by_cases hr : d.write.result = ma_result.MA_SUCCESS
  · refine ⟨store mem pDevice.pUserData
      { e with
        sampleData := e.sampleData ++
          d.pInput.take (d.framesWritten * bytesPerFrame bps e.config),
        frameCount := e.frameCount + d.framesWritten }, ?_, ?_, ?_⟩
    · simp [data_callback_for_capture, ma_encoder_write_pcm_frames, huser, hp,
        Nat.not_lt.mpr hbuf, hr, Delivery.framesWritten]
    · exact deref_store_same mem _ _ hp
    · intro q hq
      exact store_other mem _ q _ hq
  · refine ⟨mem, ?_, ?_, fun _ _ => rfl⟩
    · simp [data_callback_for_capture, ma_encoder_write_pcm_frames, huser, hp,
        Nat.not_lt.mpr hbuf, hr]
    · simp [huser, Delivery.framesWritten, hr]

/-- A sequence of invocations: all of them return, the encoder receives, in
order, the leading frames of every input that the engine writes, and nothing
else in memory changes. -/
theorem callbackRun_spec (bps : ma_format → Nat) (pDevice : ma_device) (ds : List Delivery) :
    ∀ (mem : Memory) (e : ma_encoder),
      deref mem pDevice.pUserData = some e →
      (∀ d ∈ ds, d.frameCount * bytesPerFrame bps e.config ≤ d.pInput.length) →
      ∃ mem', callbackRun bps pDevice mem ds = some mem' ∧
        deref mem' pDevice.pUserData = some
          { e with
            sampleData := e.sampleData ++
              (ds.map (fun d =>
                d.pInput.take (d.framesWritten * bytesPerFrame bps e.config))).flatten,
            frameCount := e.frameCount + (ds.map (fun d => d.framesWritten)).sum } ∧
        ∀ q, q ≠ pDevice.pUserData → mem' q = mem q := by
  induction ds with
  | nil =>
    intro mem e huser _
    exact ⟨mem, rfl, by simpa using huser, fun _ _ => rfl⟩
  | cons d ds ih =>
    intro mem e huser hbuf
    have hd := hbuf d (List.mem_cons_self _ _)
    obtain ⟨mem₁, hstep, hget₁, hother₁⟩ := data_callback_step bps mem pDevice e d huser hd
    obtain ⟨mem', hrun, hget, hother⟩ := ih mem₁ _ hget₁
      (fun x hx => hbuf x (List.mem_cons_of_mem _ hx))
    refine ⟨mem', ?_, ?_, ?_⟩
    · simp only [callbackRun, hstep]
      exact hrun
    · rw [hget]
      simp [List.append_assoc, Nat.add_assoc]
    · intro q hq
      rw [hother q hq, hother₁ q hq]

theorem stubBackend_eq_callbackRun (bps : ma_format → Nat) (pDevice : ma_device)
    (hcb : pDevice.onData = some ma_device_data_proc.data_callback_for_capture)
    (ds : List Delivery) :
    ∀ mem : Memory, stubBackend bps pDevice mem ds = callbackRun bps pDevice mem ds := by
  induction ds with
  | nil => intro mem; rfl
  | cons d ds ih =>
    intro mem
    simp only [stubBackend, callbackRun, invokeDataCallback, hcb]
    cases data_callback_for_capture bps d.write mem pDevice d.pOutput d.pInput d.frameCount with
    | none => rfl
    | some mem' => exact ih mem'

theorem framesWritten_of_accepted (d : Delivery)
    (h : d.write.result = ma_result.MA_SUCCESS ∧ d.frameCount ≤ d.write.framesAccepted) :
    d.framesWritten = d.frameCount := by
  simp [Delivery.framesWritten, h.1, Nat.min_eq_right h.2]

/-- When every write is accepted in full, the run leaves in the encoder the
leading `frameCount` frames of every input, in order. -/
theorem callbackRun_accepted (bps : ma_format → Nat) (pDevice : ma_device) (ds : List Delivery)
    (mem : Memory) (e : ma_encoder)
    (huser : deref mem pDevice.pUserData = some e)
    (hbuf : ∀ d ∈ ds, d.frameCount * bytesPerFrame bps e.config ≤ d.pInput.length)
    (hacc : ∀ d ∈ ds,
      d.write.result = ma_result.MA_SUCCESS ∧ d.frameCount ≤ d.write.framesAccepted) :
    ∃ mem', callbackRun bps pDevice mem ds = some mem' ∧
      deref mem' pDevice.pUserData = some
        { e with
          sampleData := e.sampleData ++
            (ds.map (fun d =>
              d.pInput.take (d.frameCount * bytesPerFrame bps e.config))).flatten,
          frameCount := e.frameCount + (ds.map (fun d => d.frameCount)).sum } ∧
      ∀ q, q ≠ pDevice.pUserData → mem' q = mem q := by
  obtain ⟨mem', hrun, hget, hother⟩ := callbackRun_spec bps pDevice ds mem e huser hbuf
  have h₁ : ds.map (fun d => d.pInput.take (d.framesWritten * bytesPerFrame bps e.config))
      = ds.map (fun d => d.pInput.take (d.frameCount * bytesPerFrame bps e.config)) :=
    List.map_congr_left (fun d hd => by rw [framesWritten_of_accepted d (hacc d hd)])
  have h₂ : ds.map (fun d => d.framesWritten) = ds.map (fun d => d.frameCount) :=
    List.map_congr_left (fun d hd => framesWritten_of_accepted d (hacc d hd))
  rw [h₁, h₂] at hget
  exact ⟨mem', hrun, hget, hother⟩

theorem length_flatten_take (k : Nat) (ds : List Delivery)
    (hbuf : ∀ d ∈ ds, d.frameCount * k ≤ d.pInput.length) :
    ((ds.map (fun d => d.pInput.take (d.frameCount * k))).flatten).length =
      (ds.map (fun d => d.frameCount)).sum * k := by
  induction ds with
  | nil => simp
  | cons d ds ih =>
    have hd := hbuf d (List.mem_cons_self _ _)
    have := ih (fun x hx => hbuf x (List.mem_cons_of_mem _ hx))
    simp only [List.map_cons, List.flatten_cons, List.length_append, List.sum_cons, this,
      List.length_take, Nat.min_eq_left hd]
    ring

theorem flatten_take_exact (k : Nat) (ds : List Delivery)
    (hbuf : ∀ d ∈ ds, d.pInput.length = d.frameCount * k) :
    (ds.map (fun d => d.pInput.take (d.frameCount * k))).flatten =
      (ds.map (fun d => d.pInput)).flatten := by
  induction ds with
  | nil => simp
  | cons d ds ih =>
    have hd := hbuf d (List.mem_cons_self _ _)
    have := ih (fun x hx => hbuf x (List.mem_cons_of_mem _ hx))
    simp only [List.map_cons, List.flatten_cons, this]
    rw [← hd, List.take_length]

/-! ## Exit status -/

/-- C1: whatever the argument count and the results of the three fallible
steps, `main` returns; the status is -1 exactly when `argc < 2` or the encoder
file init fails, -2 exactly when the encoder init succeeds and the device init
fails, -3 exactly when both inits succeed and the device start fails, 0
exactly when all three succeed; it is never anything else. -/
theorem main_exit_code (argc : Int) (argv : List String) (env : Env) :
    ∃ code tr, main argc argv env = some (code, tr) ∧
      (code = -1 ↔ (argc < 2 ∨ env.encoderInitFile ≠ ma_result.MA_SUCCESS)) ∧
      (code = -2 ↔ (¬ argc < 2 ∧ env.encoderInitFile = ma_result.MA_SUCCESS ∧
        env.deviceInit ≠ ma_result.MA_SUCCESS)) ∧
      (code = -3 ↔ (¬ argc < 2 ∧ env.encoderInitFile = ma_result.MA_SUCCESS ∧
        env.deviceInit = ma_result.MA_SUCCESS ∧ env.deviceStart ≠ ma_result.MA_SUCCESS)) ∧
      (code = 0 ↔ (¬ argc < 2 ∧ env.encoderInitFile = ma_result.MA_SUCCESS ∧
        env.deviceInit = ma_result.MA_SUCCESS ∧ env.deviceStart = ma_result.MA_SUCCESS)) ∧
      (code = -1 ∨ code = -2 ∨ code = -3 ∨ code = 0) := by
  by_cases h : argc < 2
  · exact ⟨_, _, main_no_argument argc argv env h, by simp [h]⟩
  · by_cases he : env.encoderInitFile = ma_result.MA_SUCCESS
    · by_cases hd : env.deviceInit = ma_result.MA_SUCCESS
      · by_cases hs : env.deviceStart = ma_result.MA_SUCCESS
        · exact ⟨_, _, main_success argc argv env h he hd hs, by simp [h, he, hd, hs]⟩
        · exact ⟨_, _, main_device_start_failure argc argv env h he hd hs,
            by simp [h, he, hd, hs]⟩
      · exact ⟨_, _, main_device_init_failure argc argv env h he hd, by simp [h, he, hd]⟩
    · exact ⟨_, _, main_encoder_failure argc argv env h he, by simp [h, he]⟩

/-- C8: with no argument (`argc < 2`) `main` returns -1 after a single
`printf`: the encoder file init is never called, so no file is created, and
no device is configured, initialized or started. -/
theorem main_without_argument (argc : Int) (argv : List String) (env : Env)
    (h : argc < 2) :
    ∃ tr, main argc argv env = some (-1, tr) ∧
      tr = [Call.printf "No output file.\n"] ∧
      (∀ c ∈ tr, c.isEncoderInitFile = false ∧ c.isDeviceConfigInit = false ∧
        c.isDeviceInit = false ∧ c.isDeviceStart = false) ∧
      (heldAfter tr).encoder = false ∧ (heldAfter tr).device = false := by
  refine ⟨_, main_no_argument argc argv env h, rfl, ?_, rfl, rfl⟩
  simp [Call.isEncoderInitFile, Call.isDeviceConfigInit, Call.isDeviceInit, Call.isDeviceStart]

/-- Instance of `main_without_argument`: the program run with no argument. -/
theorem main_without_argument_witness :
    ∃ tr, main 1 ["simple_capture"]
        { encoderInitFile := ma_result.MA_SUCCESS, deviceInit := ma_result.MA_SUCCESS,
          deviceStart := ma_result.MA_SUCCESS } = some (-1, tr) ∧
      tr = [Call.printf "No output file.\n"] ∧
      (∀ c ∈ tr, c.isEncoderInitFile = false ∧ c.isDeviceConfigInit = false ∧
        c.isDeviceInit = false ∧ c.isDeviceStart = false) ∧
      (heldAfter tr).encoder = false ∧ (heldAfter tr).device = false :=
  main_without_argument 1 ["simple_capture"] _ (by decide)

/-- C9: when an output path is given and the encoder file init fails, `main`
returns -1; no device configuration is built, `ma_device_init` and
`ma_device_start` are never called, the device stays Uninitialized and no
device is held on return. -/
theorem main_encoder_init_failure (argc : Int) (argv : List String) (env : Env)
    (h : 2 ≤ argc) (he : env.encoderInitFile ≠ ma_result.MA_SUCCESS) :
    ∃ tr, main argc argv env = some (-1, tr) ∧
      (∀ c ∈ tr, c.isDeviceConfigInit = false ∧ c.isDeviceInit = false ∧
        c.isDeviceStart = false) ∧
      (∀ s ∈ deviceHistory tr, s = DeviceState.Uninitialized) ∧
      (heldAfter tr).device = false ∧ (heldAfter tr).deviceConfig = false := by
  refine ⟨_, main_encoder_failure argc argv env (by omega) he, ?_, ?_, ?_, ?_⟩
  · simp [tracePrefix, Call.isDeviceConfigInit, Call.isDeviceInit, Call.isDeviceStart]
  · simp [tracePrefix, deviceHistory, issued, issuedFrom, deviceStep]
  · simp [tracePrefix, heldAfter, resourceStep, he]
  · simp [tracePrefix, heldAfter, resourceStep, he]

/-- Instance of `main_encoder_init_failure`: a path whose file cannot be created. -/
theorem main_encoder_init_failure_witness :
    ∃ tr, main 2 ["simple_capture", "/readonly/out.wav"]
        { encoderInitFile := ma_result.MA_ERROR (-1), deviceInit := ma_result.MA_SUCCESS,
          deviceStart := ma_result.MA_SUCCESS } = some (-1, tr) ∧
      (∀ c ∈ tr, c.isDeviceConfigInit = false ∧ c.isDeviceInit = false ∧
        c.isDeviceStart = false) ∧
      (∀ s ∈ deviceHistory tr, s = DeviceState.Uninitialized) ∧
      (heldAfter tr).device = false ∧ (heldAfter tr).deviceConfig = false :=
  main_encoder_init_failure 2 ["simple_capture", "/readonly/out.wav"] _ (by decide)
    (by decide)

/-! ## Configuration -/

theorem device_config_matches_encoder_aux (mem : Memory) (encoder : Ptr) (e : ma_encoder)
    (h : deref mem encoder = some e) :
    ∃ cfg, ma_ext_device_config_init_for_capture mem encoder = some cfg ∧
      cfg.deviceType = ma_device_type.ma_device_type_capture ∧
      cfg.capture.format = e.config.format ∧
      cfg.capture.channels = e.config.channels ∧
      cfg.sampleRate = e.config.sampleRate ∧
      cfg.dataCallback = some ma_device_data_proc.data_callback_for_capture ∧
      cfg.pUserData = encoder := by
  simp [ma_ext_device_config_init_for_capture, h, ma_device_config_init,
    allocate_ma_device_config_copy]

/-- C4: for every encoder, `ma_ext_device_config_init_for_capture` returns a
capture configuration whose capture format, capture channel count and sample
rate are those of the configuration of the encoder; the callback and the user
data it installs are `data_callback_for_capture` and the encoder itself. -/
theorem device_config_matches_encoder (mem : Memory) (encoder : Ptr) (e : ma_encoder)
    (h : deref mem encoder = some e) :
    ∃ cfg, ma_ext_device_config_init_for_capture mem encoder = some cfg ∧
      cfg.deviceType = ma_device_type.ma_device_type_capture ∧
      cfg.capture.format = e.config.format ∧
      cfg.capture.channels = e.config.channels ∧
      cfg.sampleRate = e.config.sampleRate ∧
      cfg.dataCallback = some ma_device_data_proc.data_callback_for_capture ∧
      cfg.pUserData = encoder :=
  device_config_matches_encoder_aux mem encoder e h

/-- Instance of `device_config_matches_encoder`: the encoder of `main`. -/
theorem device_config_matches_encoder_witness :
    ∃ cfg, ma_ext_device_config_init_for_capture demoMemory encoderAddr = some cfg ∧
      cfg.deviceType = ma_device_type.ma_device_type_capture ∧
      cfg.capture.format = demoEncoder.config.format ∧
      cfg.capture.channels = demoEncoder.config.channels ∧
      cfg.sampleRate = demoEncoder.config.sampleRate ∧
      cfg.dataCallback = some ma_device_data_proc.data_callback_for_capture ∧
      cfg.pUserData = encoderAddr :=
  device_config_matches_encoder demoMemory encoderAddr demoEncoder (by decide)

/-- C10: with at least one argument, `main` makes exactly one encoder file
init call, with the constants WAV, 32-bit float, 2 channels, 44100 Hz,
whatever the argument values; `ma_ext_encoder_config_init` equals
`ma_encoder_config_init` of the same four arguments field for field; every
`ma_device_init` call of the run gets a capture configuration with f32, 2
channels, 44100 Hz, and that call is made once the encoder init succeeded. -/
theorem main_fixed_format (argc : Int) (argv : List String) (env : Env) (h : 2 ≤ argc) :
    (∀ a b c d, ma_ext_encoder_config_init a b c d = ma_encoder_config_init a b c d) ∧
    (∀ a b c d, (ma_ext_encoder_config_init a b c d).encodingFormat = a ∧
      (ma_ext_encoder_config_init a b c d).format = b ∧
      (ma_ext_encoder_config_init a b c d).channels = c ∧
      (ma_ext_encoder_config_init a b c d).sampleRate = d) ∧
    ∃ code tr, main argc argv env = some (code, tr) ∧
      tr.filter Call.isEncoderInitFile =
        [Call.ma_encoder_init_file (argv.get? 1)
          { encodingFormat := ma_encoding_format.ma_encoding_format_wav,
            format := ma_format.ma_format_f32, channels := 2, sampleRate := 44100 }
          encoderAddr env.encoderInitFile] ∧
      (∀ cfg r, Call.ma_device_init cfg r ∈ tr →
        cfg.deviceType = ma_device_type.ma_device_type_capture ∧
        cfg.capture.format = ma_format.ma_format_f32 ∧
        cfg.capture.channels = 2 ∧ cfg.sampleRate = 44100) ∧
      (env.encoderInitFile = ma_result.MA_SUCCESS →
        ∃ cfg, Call.ma_device_init cfg env.deviceInit ∈ tr) := by
  have h2 : ¬ argc < 2 := by omega
  refine ⟨fun _ _ _ _ => rfl, fun _ _ _ _ => ⟨rfl, rfl, rfl, rfl⟩, ?_⟩
  by_cases he : env.encoderInitFile = ma_result.MA_SUCCESS
  · by_cases hd : env.deviceInit = ma_result.MA_SUCCESS
    · by_cases hs : env.deviceStart = ma_result.MA_SUCCESS
      · refine ⟨_, _, main_success argc argv env h2 he hd hs, ?_, ?_, ?_⟩
        · simp [tracePrefix, Call.isEncoderInitFile, mainEncoderConfig, he]
        · simp [tracePrefix, mainDeviceConfig]
        · simp [tracePrefix, hd]
      · refine ⟨_, _, main_device_start_failure argc argv env h2 he hd hs, ?_, ?_, ?_⟩
        · simp [tracePrefix, Call.isEncoderInitFile, mainEncoderConfig, he]
        · simp [tracePrefix, mainDeviceConfig]
        · simp [tracePrefix, hd]
    · refine ⟨_, _, main_device_init_failure argc argv env h2 he hd, ?_, ?_, ?_⟩
      · simp [tracePrefix, Call.isEncoderInitFile, mainEncoderConfig, he]
      · simp [tracePrefix, mainDeviceConfig]
      · simp [tracePrefix]
  · refine ⟨_, _, main_encoder_failure argc argv env h2 he, ?_, ?_, ?_⟩
    · simp [tracePrefix, Call.isEncoderInitFile, mainEncoderConfig]
    · simp [tracePrefix]
    · simp [he]

/-- Instance of `main_fixed_format`: a run in which every step succeeds. -/
theorem main_fixed_format_witness :
    (∀ a b c d, ma_ext_encoder_config_init a b c d = ma_encoder_config_init a b c d) ∧
    (∀ a b c d, (ma_ext_encoder_config_init a b c d).encodingFormat = a ∧
      (ma_ext_encoder_config_init a b c d).format = b ∧
      (ma_ext_encoder_config_init a b c d).channels = c ∧
      (ma_ext_encoder_config_init a b c d).sampleRate = d) ∧
    ∃ code tr, main 2 ["simple_capture", "out.wav"]
        { encoderInitFile := ma_result.MA_SUCCESS, deviceInit := ma_result.MA_SUCCESS,
          deviceStart := ma_result.MA_SUCCESS } = some (code, tr) ∧
      tr.filter Call.isEncoderInitFile =
        [Call.ma_encoder_init_file (["simple_capture", "out.wav"].get? 1)
          { encodingFormat := ma_encoding_format.ma_encoding_format_wav,
            format := ma_format.ma_format_f32, channels := 2, sampleRate := 44100 }
          encoderAddr ma_result.MA_SUCCESS] ∧
      (∀ cfg r, Call.ma_device_init cfg r ∈ tr →
        cfg.deviceType = ma_device_type.ma_device_type_capture ∧
        cfg.capture.format = ma_format.ma_format_f32 ∧
        cfg.capture.channels = 2 ∧ cfg.sampleRate = 44100) ∧
      (ma_result.MA_SUCCESS = ma_result.MA_SUCCESS →
        ∃ cfg, Call.ma_device_init cfg ma_result.MA_SUCCESS ∈ tr) :=
  main_fixed_format 2 ["simple_capture", "out.wav"]
    { encoderInitFile := ma_result.MA_SUCCESS, deviceInit := ma_result.MA_SUCCESS,
      deviceStart := ma_result.MA_SUCCESS } (by decide)

/-! ## Frames reaching the encoder -/

/-- C2, as stated, fails: two invocations deliver 1 + 2 = 3 stereo f32 frames
and the engine refuses the second write; the callback discards that result,
and the encoder holds 8 bytes of sample data, which is 1 frame, not 3. -/
theorem frame_count_lost_on_refused_write :
    ∃ mem' e', callbackRun demoBps demoDevice demoMemory demoRefusedSecond = some mem' ∧
      deref mem' demoDevice.pUserData = some e' ∧
      e'.sampleData.length = 8 ∧
      demoEncoder.config.channels * demoBps demoEncoder.config.format = 8 ∧
      (demoRefusedSecond.map (fun d => d.frameCount)).sum = 3 ∧
      e'.sampleData.length / (demoEncoder.config.channels * demoBps demoEncoder.config.format)
        ≠ (demoRefusedSecond.map (fun d => d.frameCount)).sum :=
  ⟨store demoMemory encoderAddr
      { config := mainEncoderConfig, sampleData := [1, 2, 3, 4, 5, 6, 7, 8], frameCount := 1 },
    { config := mainEncoderConfig, sampleData := [1, 2, 3, 4, 5, 6, 7, 8], frameCount := 1 },
    rfl, by decide, by decide, by decide, by decide, by decide⟩

/-- C2, amended: frame count invariant. For every sequence of invocations of
`data_callback_for_capture` on a device whose user data is the encoder, every
delivered buffer holding the frames it announces and every write accepted in
full by the engine, all invocations return and the number of bytes of sample
data written to that encoder is exactly the sum of the delivered frame counts
times channelCount x bytesPerSample; with a non-zero frame size, the bytes
divided by the frame size equal the frames delivered. -/
theorem frame_count_invariant (bps : ma_format → Nat) (mem : Memory) (pDevice : ma_device)
    (e : ma_encoder) (ds : List Delivery)
    (huser : deref mem pDevice.pUserData = some e)
    (hbuf : ∀ d ∈ ds,
      d.frameCount * (e.config.channels * bps e.config.format) ≤ d.pInput.length)
    (hacc : ∀ d ∈ ds,
      d.write.result = ma_result.MA_SUCCESS ∧ d.frameCount ≤ d.write.framesAccepted) :
    ∃ mem' e' written, callbackRun bps pDevice mem ds = some mem' ∧
      deref mem' pDevice.pUserData = some e' ∧
      e'.config = e.config ∧
      e'.sampleData = e.sampleData ++ written ∧
      e'.frameCount = e.frameCount + (ds.map (fun d => d.frameCount)).sum ∧
      written.length =
        (ds.map (fun d => d.frameCount)).sum * (e.config.channels * bps e.config.format) ∧
      (0 < e.config.channels * bps e.config.format →
        written.length / (e.config.channels * bps e.config.format) =
          (ds.map (fun d => d.frameCount)).sum) := by
  obtain ⟨mem', hrun, hget, _⟩ := callbackRun_accepted bps pDevice ds mem e huser hbuf hacc
  have hlen := length_flatten_take (bytesPerFrame bps e.config) ds hbuf
  refine ⟨mem', _, _, hrun, hget, rfl, rfl, rfl, hlen, fun hframe => ?_⟩
  rw [hlen]
  exact Nat.mul_div_cancel _ hframe

/-- Instance of `frame_count_invariant`: three stereo f32 frames in two
deliveries, both writes accepted. -/
theorem frame_count_invariant_witness :
    ∃ mem' e' written, callbackRun demoBps demoDevice demoMemory demoDeliveries = some mem' ∧
      deref mem' demoDevice.pUserData = some e' ∧
      e'.config = demoEncoder.config ∧
      e'.sampleData = demoEncoder.sampleData ++ written ∧
      e'.frameCount = demoEncoder.frameCount + (demoDeliveries.map (fun d => d.frameCount)).sum ∧
      written.length =
        (demoDeliveries.map (fun d => d.frameCount)).sum *
          (demoEncoder.config.channels * demoBps demoEncoder.config.format) ∧
      (0 < demoEncoder.config.channels * demoBps demoEncoder.config.format →
        written.length / (demoEncoder.config.channels * demoBps demoEncoder.config.format) =
          (demoDeliveries.map (fun d => d.frameCount)).sum) :=
  frame_count_invariant demoBps demoMemory demoDevice demoEncoder demoDeliveries
    (by decide) (by decide) (by decide)

/-- C3, as stated, fails: a stub backend delivers two one-frame buffers to the
callback installed by `ma_ext_device_config_init_for_capture`, and the output
accepts no frame of the first write; the callback does not look at the frames
written, and the encoder holds the second buffer only, not the concatenation
of the two. -/
theorem first_buffer_dropped_on_short_write :
    ∃ cfg dev mem' e',
      ma_ext_device_config_init_for_capture demoMemory encoderAddr = some cfg ∧
      ma_device_init ma_result.MA_SUCCESS cfg = (ma_result.MA_SUCCESS, some dev) ∧
      stubBackend demoBps dev demoMemory demoShortFirst = some mem' ∧
      deref mem' encoderAddr = some e' ∧
      e'.sampleData = [9, 10, 11, 12, 13, 14, 15, 16] ∧
      e'.sampleData ≠
        demoEncoder.sampleData ++ (demoShortFirst.map (fun d => d.pInput)).flatten :=
  ⟨mainDeviceConfig, demoDevice,
    store (store demoMemory encoderAddr demoEncoder) encoderAddr
      { config := mainEncoderConfig, sampleData := [9, 10, 11, 12, 13, 14, 15, 16],
        frameCount := 1 },
    { config := mainEncoderConfig, sampleData := [9, 10, 11, 12, 13, 14, 15, 16],
      frameCount := 1 },
    by decide, by decide, rfl, by decide, by decide, by decide⟩

/-- C3, amended: end-to-end order. For every encoder and every sequence of
buffers a stub backend delivers to the callback installed by
`ma_ext_device_config_init_for_capture`, each buffer holding exactly the
frames it announces and every write accepted in full by the engine, the sample
data of that same encoder grows by exactly the concatenation of the delivered
input buffers in delivery order, its frame count by the delivered frames, its
configuration and every other object in memory stay as they were, and the
callback does not depend on `pOutput`. -/
theorem capture_end_to_end (bps : ma_format → Nat) (mem : Memory) (encoder : Ptr)
    (e : ma_encoder) (ds : List Delivery)
    (henc : deref mem encoder = some e)
    (hbuf : ∀ d ∈ ds, d.pInput.length = d.frameCount * bytesPerFrame bps e.config)
    (hacc : ∀ d ∈ ds,
      d.write.result = ma_result.MA_SUCCESS ∧ d.frameCount ≤ d.write.framesAccepted) :
    ∃ cfg dev mem', ma_ext_device_config_init_for_capture mem encoder = some cfg ∧
      ma_device_init ma_result.MA_SUCCESS cfg = (ma_result.MA_SUCCESS, some dev) ∧
      stubBackend bps dev mem ds = some mem' ∧
      deref mem' encoder = some
        { config := e.config,
          sampleData := e.sampleData ++ (ds.map (fun d => d.pInput)).flatten,
          frameCount := e.frameCount + (ds.map (fun d => d.frameCount)).sum } ∧
      (∀ q, q ≠ encoder → mem' q = mem q) ∧
      (∀ (w : WriteOutcome) (m : Memory) (o₁ o₂ : Option (List Byte)) (i : List Byte) (n : Nat),
        data_callback_for_capture bps w m dev o₁ i n =
          data_callback_for_capture bps w m dev o₂ i n) := by
  obtain ⟨cfg, hcfg, _, _, _, _, hcb, hud⟩ := device_config_matches_encoder_aux mem encoder e henc
  have huser : deref mem
      ({ pUserData := cfg.pUserData, onData := cfg.dataCallback } : ma_device).pUserData
        = some e := by
    simpa [hud] using henc
  obtain ⟨mem', hrun, hget, hother⟩ := callbackRun_accepted bps
    { pUserData := cfg.pUserData, onData := cfg.dataCallback } ds mem e huser
    (fun d hd => le_of_eq (hbuf d hd).symm) hacc
  refine ⟨cfg, { pUserData := cfg.pUserData, onData := cfg.dataCallback }, mem', hcfg,
    by simp [ma_device_init], ?_, ?_, ?_, fun _ _ _ _ _ _ => rfl⟩
  · rw [stubBackend_eq_callbackRun bps _ (by simpa using hcb)]
    exact hrun
  · have hx := flatten_take_exact (bytesPerFrame bps e.config) ds hbuf
    simp only [hud] at hget
    rw [hget, hx]
  · intro q hq
    exact hother q (by simpa [hud] using hq)

/-- Instance of `capture_end_to_end`: three stereo f32 frames in two
deliveries, both writes accepted. -/
theorem capture_end_to_end_witness :
    ∃ cfg dev mem', ma_ext_device_config_init_for_capture demoMemory encoderAddr = some cfg ∧
      ma_device_init ma_result.MA_SUCCESS cfg = (ma_result.MA_SUCCESS, some dev) ∧
      stubBackend demoBps dev demoMemory demoDeliveries = some mem' ∧
      deref mem' encoderAddr = some
        { config := demoEncoder.config,
          sampleData := demoEncoder.sampleData ++
            (demoDeliveries.map (fun d => d.pInput)).flatten,
          frameCount := demoEncoder.frameCount +
            (demoDeliveries.map (fun d => d.frameCount)).sum } ∧
      (∀ q, q ≠ encoderAddr → mem' q = demoMemory q) ∧
      (∀ (w : WriteOutcome) (m : Memory) (o₁ o₂ : Option (List Byte)) (i : List Byte) (n : Nat),
        data_callback_for_capture demoBps w m dev o₁ i n =
          data_callback_for_capture demoBps w m dev o₂ i n) :=
  capture_end_to_end demoBps demoMemory encoderAddr demoEncoder demoDeliveries
    (by decide) (by decide) (by decide)

/-! ## Teardown order and device lifecycle -/

/-- C5, the code at a failing input: the encoder init and the device init
succeed and the device start fails; `main` tears the device down and returns
-3 without ever calling `ma_encoder_uninit`, so the encoder it created is
destroyed zero times, not once, and is still held on return. -/
theorem encoder_never_destroyed_on_start_failure :
    ∃ tr, main 2 ["simple_capture", "out.wav"]
        { encoderInitFile := ma_result.MA_SUCCESS, deviceInit := ma_result.MA_SUCCESS,
          deviceStart := ma_result.MA_ERROR (-1) } = some (-3, tr) ∧
      Call.ma_encoder_init_file (some "out.wav") mainEncoderConfig encoderAddr
        ma_result.MA_SUCCESS ∈ tr ∧
      Call.ma_device_uninit ∈ tr ∧
      tr.countP Call.isEncoderUninit = 0 ∧
      tr.countP Call.isEncoderUninit ≠ 1 ∧
      (heldAfter tr).encoder = true ∧ (heldAfter tr).device = false :=
  ⟨_, main_device_start_failure 2 _ _ (by decide) rfl rfl (by decide),
    by decide, by decide, by decide, by decide, by decide, by decide⟩

/-- C6, as stated, fails: on the run where all three steps succeed,
`ma_device_uninit` is issued with the device Running, not Stopped, and the
run contains no `ma_device_stop`. -/
theorem device_uninit_issued_while_running :
    ∃ tr, main 2 ["simple_capture", "out.wav"]
        { encoderInitFile := ma_result.MA_SUCCESS, deviceInit := ma_result.MA_SUCCESS,
          deviceStart := ma_result.MA_SUCCESS } = some (0, tr) ∧
      (DeviceState.Running, Call.ma_device_uninit) ∈ issued tr ∧
      (DeviceState.Stopped, Call.ma_device_uninit) ∉ issued tr ∧
      Call.ma_device_stop ∉ tr :=
  ⟨_, main_success 2 _ _ (by decide) rfl rfl rfl, by decide, by decide, by decide⟩

/-- C6, amended: on every execution path of `main` the device only moves
forward through Uninitialized, Ready, Running, Closed and is never Stopped
between two calls; `main` never calls `ma_device_stop`; `ma_device_uninit` is
issued at most once, exactly when the device init succeeded, on the Running
device when the start succeeded and on the Ready device when it failed, and
leaves the device Closed. -/
theorem device_lifecycle (argc : Int) (argv : List String) (env : Env) :
    ∃ code tr, main argc argv env = some (code, tr) ∧
      Call.ma_device_stop ∉ tr ∧
      (deviceHistory tr).Pairwise (fun a b => a.rank ≤ b.rank) ∧
      DeviceState.Stopped ∉ deviceHistory tr ∧
      tr.count Call.ma_device_uninit ≤ 1 ∧
      (Call.ma_device_uninit ∈ tr ↔
        (¬ argc < 2 ∧ env.encoderInitFile = ma_result.MA_SUCCESS ∧
          env.deviceInit = ma_result.MA_SUCCESS)) ∧
      (∀ p ∈ issued tr, p.2 = Call.ma_device_uninit →
        (p.1 = DeviceState.Running ∨ p.1 = DeviceState.Ready) ∧
        (p.1 = DeviceState.Running ↔ env.deviceStart = ma_result.MA_SUCCESS) ∧
        deviceStep p.1 p.2 = DeviceState.Closed) := by
  by_cases h : argc < 2
  · refine ⟨_, _, main_no_argument argc argv env h, ?_, ?_, ?_, ?_, ?_, ?_⟩ <;>
      simp [deviceHistory, issued, issuedFrom, deviceStep, h]
  · by_cases he : env.encoderInitFile = ma_result.MA_SUCCESS
    · by_cases hd : env.deviceInit = ma_result.MA_SUCCESS
      · by_cases hs : env.deviceStart = ma_result.MA_SUCCESS
        · refine ⟨_, _, main_success argc argv env h he hd hs, ?_, ?_, ?_, ?_, ?_, ?_⟩ <;>
            simp [tracePrefix, deviceHistory, issued, issuedFrom, deviceStep,
              DeviceState.stop, DeviceState.close, DeviceState.rank, h, he, hd, hs]
        · refine ⟨_, _, main_device_start_failure argc argv env h he hd hs,
            ?_, ?_, ?_, ?_, ?_, ?_⟩ <;>
            simp [tracePrefix, deviceHistory, issued, issuedFrom, deviceStep,
              DeviceState.stop, DeviceState.close, DeviceState.rank, h, he, hd, hs]
      · refine ⟨_, _, main_device_init_failure argc argv env h he hd, ?_, ?_, ?_, ?_, ?_, ?_⟩ <;>
          simp [tracePrefix, deviceHistory, issued, issuedFrom, deviceStep,
            DeviceState.stop, DeviceState.close, DeviceState.rank, h, he, hd]
    · refine ⟨_, _, main_encoder_failure argc argv env h he, ?_, ?_, ?_, ?_, ?_, ?_⟩ <;>
        simp [tracePrefix, deviceHistory, issued, issuedFrom, deviceStep,
          DeviceState.stop, DeviceState.close, DeviceState.rank, h, he]

/-! ## Resources on the failure paths -/

/-- C7, the code at a failing input: the encoder init succeeds and the device
init fails; `main` returns -2 while the heap encoder config, the encoder and
the heap device config are all still held. -/
theorem main_returns_holding_resources :
    ∃ tr, main 2 ["simple_capture", "out.wav"]
        { encoderInitFile := ma_result.MA_SUCCESS, deviceInit := ma_result.MA_ERROR (-1),
          deviceStart := ma_result.MA_SUCCESS } = some (-2, tr) ∧
      heldAfter tr =
        { encoderConfig := true, encoder := true, deviceConfig := true, device := false } ∧
      tr.countP Call.isEncoderUninit = 0 ∧
      Call.ma_ext_free HeapObject.encoderConfig ∉ tr ∧
      Call.ma_ext_free HeapObject.deviceConfig ∉ tr :=
  ⟨_, main_device_init_failure 2 _ _ (by decide) rfl (by decide),
    by decide, by decide, by decide, by decide⟩

end SimpleCapture
